import Mathlib

/-!
Shallow embedding of `crates/bevy_ecs/src/resource/resource_query.rs`.

Resource types (Rust `TypeId`) are modelled as `Nat`; system ids
(`SystemId`) as `Nat`; resource values as `Nat`; raw slot pointers
(`NonNull<T>`) as `Nat` addresses.  Fatal failures (Rust panics) are
modelled as `none` / `Except.error`.  Code generic in a resource type `T`
becomes code parameterised by a `Nat` type id `t`.

The resource store (`Resources`), the access-descriptor type
(`TypeAccess`) and the default-construction protocol (`FromResources`)
live outside the provided source file; they are modelled from the spec
(sections 3, 4.1, 6), as marked on each definition.
-/

namespace Bevy

/-- Modelled from the spec: `ResourceIndex` selects which slot a handle
addresses, either the single global slot of a type or the private
per-system slot (spec section 3). -/
inductive ResourceIndex where
| Global : ResourceIndex
| System : Nat → ResourceIndex
deriving Repr, DecidableEq

/-- Modelled from the spec: the external resource store `Resources`
(spec sections 3, 5, 6).  Borrow state is one read counter and one
exclusive flag per resource type; values live in one global slot per
type and in private slots keyed by (system id, type). -/
structure Resources where
readCount : Nat → Nat
writeFlag : Nat → Bool
globalSlot : Nat → Option Nat
localSlot : Nat → Nat → Option Nat

attribute [ext] Resources

/-- Modelled from the spec: `begin_shared_borrow` / `Resources::borrow::<T>()`;
increments the read counter of `t`, fails (fatally) if the exclusive flag
of `t` is set (spec sections 4.2, 6). -/
def Resources.borrow (r : Resources) (t : Nat) : Option Resources :=
  if r.writeFlag t then none
  else some { r with readCount := fun u => if u = t then r.readCount u + 1 else r.readCount u }

/-- Modelled from the spec: `end_shared_borrow` / `Resources::release::<T>()`;
decrements the read counter of `t` (spec section 6). -/
def Resources.release (r : Resources) (t : Nat) : Resources :=
  { r with readCount := fun u => if u = t then r.readCount u - 1 else r.readCount u }

/-- Modelled from the spec: `begin_exclusive_borrow` /
`Resources::borrow_mut::<T>()`; sets the exclusive flag of `t`, fails
(fatally) if any read count is outstanding or the flag is already set
(spec sections 4.2, 6). -/
def Resources.borrow_mut (r : Resources) (t : Nat) : Option Resources :=
  if r.writeFlag t then none
  else if r.readCount t ≠ 0 then none
  else some { r with writeFlag := fun u => if u = t then true else r.writeFlag u }

/-- Modelled from the spec: `end_exclusive_borrow` /
`Resources::release_mut::<T>()`; clears the exclusive flag of `t`
(spec section 6). -/
def Resources.release_mut (r : Resources) (t : Nat) : Resources :=
  { r with writeFlag := fun u => if u = t then false else r.writeFlag u }

/-- Modelled from the spec: `Resources::get_unsafe_ref::<T>(index)`
(`get_slot_ref` in the spec, section 6): returns the value in the slot
addressed by `index`, fails (fatally) if no slot is registered there. -/
def Resources.get_raw_ref (r : Resources) (t : Nat) : ResourceIndex → Option Nat
| ResourceIndex.Global => r.globalSlot t
| ResourceIndex.System i => r.localSlot i t

/-- Modelled from the spec: `Resources::insert_local(id, value)`
(`insert_private_slot` in the spec, section 6): creates the
(system, type) slot; first writer wins, no overwrite on repeat calls. -/
def Resources.insert_local (r : Resources) (i : Nat) (t : Nat) (v : Nat) : Resources :=
  match r.localSlot i t with
  | some _ => r
  | none => { r with localSlot := fun a b => if a = i ∧ b = t then some v else r.localSlot a b }

/-- Modelled from the spec: `TypeAccess` (the `AccessDescriptor` of spec
section 4.1), a pair of sets of type ids: read set (`immutable`) and
write set (`mutable`). -/
structure TypeAccess where
immutable : Finset Nat
mutable : Finset Nat
deriving DecidableEq

attribute [ext] TypeAccess

/-- Modelled from the spec: `TypeAccess::default()`, the empty descriptor. -/
def TypeAccess.default : TypeAccess :=
  { immutable := ∅, mutable := ∅ }

/-- Modelled from the spec: `TypeAccess::union(&other)`, merging two
descriptors setwise (spec section 4.1). -/
def TypeAccess.union (a b : TypeAccess) : TypeAccess :=
  { immutable := a.immutable ∪ b.immutable, mutable := a.mutable ∪ b.mutable }

/-- The `Res<T>` handle (shared borrow of a resource): models the Rust
struct holding a reference to the value; `value` is the slot pointer. -/
structure Res where
value : Nat
deriving Repr, DecidableEq

/-- The `ResMut<T>` handle (unique borrow of a resource): models the Rust
struct holding a raw pointer `value` to the value. -/
structure ResMut where
value : Nat
deriving Repr, DecidableEq

/-- The `Local<T>` handle (per-system resource): models the Rust struct
holding a raw pointer `value` to the per-system value. -/
structure Local where
value : Nat
deriving Repr, DecidableEq

/-- `<Res<T> as UnsafeClone>::unsafe_clone` (source lines 32-36):
`Self { value: self.value }`.  The source body performs no store
operation, so the state-passing embedding returns the store unchanged. -/
def Res.raw_clone (h : Res) (r : Resources) : Res × Resources :=
  ({ value := h.value }, r)

/-- `<ResMut<T> as UnsafeClone>::unsafe_clone` (source lines 81-88). -/
def ResMut.raw_clone (h : ResMut) (r : Resources) : ResMut × Resources :=
  ({ value := h.value }, r)

/-- `<Local<T> as UnsafeClone>::unsafe_clone` (source lines 97-104). -/
def Local.raw_clone (h : Local) (r : Resources) : Local × Resources :=
  ({ value := h.value }, r)

/-- The `tuple_impl` instance of `UnsafeClone` at arity two, for the
element types `(Res, ResMut)` (source lines 277-282): clones every
component in declaration order. -/
def prod_raw_clone (p : Res × ResMut) (r : Resources) : (Res × ResMut) × Resources :=
  let (a, r₁) := Res.raw_clone p.1 r
  let (b, r₂) := ResMut.raw_clone p.2 r₁
  ((a, b), r₂)

/-- The panic message of the two `expect` calls on a missing system id
(source lines 202 and 214). -/
def localPanicMsg : String := "Local<T> resources can only be used by systems"

/-- Errors of fallible fetch operations: a missing system identity for a
`Local<T>` (the `expect` panic, carrying its message), or a missing
resource slot (the `get_unsafe_ref` panic). -/
inductive FetchError where
| missingSystemId : String → FetchError
| missingResource : FetchError
deriving Repr, DecidableEq

/-- `FetchResourceRead::<T>::borrow` (source lines 153-155):
`resources.borrow::<T>()`. -/
def FetchResourceRead.borrow (t : Nat) (r : Resources) : Option Resources :=
  Resources.borrow r t

/-- `FetchResourceRead::<T>::release` (source lines 157-159):
`resources.release::<T>()`. -/
def FetchResourceRead.release (t : Nat) (r : Resources) : Resources :=
  Resources.release r t

/-- `FetchResourceRead::<T>::access` (source lines 161-165): default
descriptor with `T` inserted into the `immutable` set. -/
def FetchResourceRead.access (t : Nat) : TypeAccess :=
  { TypeAccess.default with immutable := insert t TypeAccess.default.immutable }

/-- `FetchResourceRead::<T>::get` (source lines 149-151): reads the
global slot of `T`; the system id is ignored. -/
def FetchResourceRead.get (t : Nat) (r : Resources) (_sid : Option Nat) : Except FetchError Nat :=
  match r.get_raw_ref t ResourceIndex.Global with
  | some v => Except.ok v
  | none => Except.error FetchError.missingResource

/-- `FetchResourceWrite::<T>::borrow` (source lines 182-184):
`resources.borrow_mut::<T>()`. -/
def FetchResourceWrite.borrow (t : Nat) (r : Resources) : Option Resources :=
  Resources.borrow_mut r t

/-- `FetchResourceWrite::<T>::release` (source lines 186-188):
`resources.release_mut::<T>()`. -/
def FetchResourceWrite.release (t : Nat) (r : Resources) : Resources :=
  Resources.release_mut r t

/-- `FetchResourceWrite::<T>::access` (source lines 190-194): default
descriptor with `T` inserted into the `mutable` set. -/
def FetchResourceWrite.access (t : Nat) : TypeAccess :=
  { TypeAccess.default with mutable := insert t TypeAccess.default.mutable }

/-- `FetchResourceWrite::<T>::get` (source lines 178-180): reads the
global slot of `T`; the system id is ignored. -/
def FetchResourceWrite.get (t : Nat) (r : Resources) (_sid : Option Nat) : Except FetchError Nat :=
  match r.get_raw_ref t ResourceIndex.Global with
  | some v => Except.ok v
  | none => Except.error FetchError.missingResource

/-- `FetchResourceLocalMut::<T>::borrow` (source lines 223-225):
`resources.borrow_mut::<T>()` — the same global exclusive borrow as
`FetchResourceWrite`. -/
def FetchResourceLocalMut.borrow (t : Nat) (r : Resources) : Option Resources :=
  Resources.borrow_mut r t

/-- `FetchResourceLocalMut::<T>::release` (source lines 227-229):
`resources.release_mut::<T>()`. -/
def FetchResourceLocalMut.release (t : Nat) (r : Resources) : Resources :=
  Resources.release_mut r t

/-- `FetchResourceLocalMut::<T>::access` (source lines 231-235): default
descriptor with `T` inserted into the `mutable` set. -/
def FetchResourceLocalMut.access (t : Nat) : TypeAccess :=
  { TypeAccess.default with mutable := insert t TypeAccess.default.mutable }

/-- `FetchResourceLocalMut::<T>::get` (source lines 213-221):
`system_id.expect("Local<T> resources can only be used by systems")`,
then reads the `ResourceIndex::System(id)` slot of `T`. -/
def FetchResourceLocalMut.get (t : Nat) (r : Resources) (sid : Option Nat) :
    Except FetchError Nat :=
  match sid with
  | none => Except.error (FetchError.missingSystemId localPanicMsg)
  | some i =>
    match r.get_raw_ref t (ResourceIndex.System i) with
    | some v => Except.ok v
    | none => Except.error FetchError.missingResource

/-- `<Local<T> as ResourceQuery>::initialize` (source lines 200-204):
computes `T::from_resources(resources)` (the external
default-construction protocol, here the parameter `d`), unwraps the
system id with `expect`, then calls `resources.insert_local(id, value)`. -/
def Local.initialize (t : Nat) (d : Resources → Nat) (r : Resources) (sid : Option Nat) :
    Except FetchError Resources :=
  let value := d r
  match sid with
  | none => Except.error (FetchError.missingSystemId localPanicMsg)
  | some i => Except.ok (r.insert_local i t value)

/-- One element of a composite fetch: the three `FetchResource`
implementors generic over a type id, so that the variadic `tuple_impl`
(source lines 238-286) can be embedded as a list of elements. -/
inductive Fetch where
| read : Nat → Fetch
| write : Nat → Fetch
| localMut : Nat → Fetch
deriving Repr, DecidableEq

/-- Dispatch of `FetchResource::borrow` over the element kinds. -/
def Fetch.borrow : Fetch → Resources → Option Resources
| Fetch.read t => FetchResourceRead.borrow t
| Fetch.write t => FetchResourceWrite.borrow t
| Fetch.localMut t => FetchResourceLocalMut.borrow t

/-- Dispatch of `FetchResource::release` over the element kinds. -/
def Fetch.release : Fetch → Resources → Resources
| Fetch.read t => FetchResourceRead.release t
| Fetch.write t => FetchResourceWrite.release t
| Fetch.localMut t => FetchResourceLocalMut.release t

/-- Dispatch of `FetchResource::access` over the element kinds. -/
def Fetch.access : Fetch → TypeAccess
| Fetch.read t => FetchResourceRead.access t
| Fetch.write t => FetchResourceWrite.access t
| Fetch.localMut t => FetchResourceLocalMut.access t

/-- Dispatch of `FetchResource::get` over the element kinds. -/
def Fetch.get : Fetch → Resources → Option Nat → Except FetchError Nat
| Fetch.read t => FetchResourceRead.get t
| Fetch.write t => FetchResourceWrite.get t
| Fetch.localMut t => FetchResourceLocalMut.get t

/-- The `tuple_impl` `FetchResource::borrow` (source lines 243-246):
`$($name::borrow(resources);)*` — each element's borrow, in declaration
order; a panic (here `none`) aborts the sequence. -/
def compositeBorrow : List Fetch → Resources → Option Resources
| [], r => some r
| f :: fs, r => (f.borrow r).bind (compositeBorrow fs)

/-- The `tuple_impl` `FetchResource::release` (source lines 248-251):
`$($name::release(resources);)*` — each element's release, in
declaration order. -/
def compositeRelease : List Fetch → Resources → Resources
| [], r => r
| f :: fs, r => compositeRelease fs (f.release r)

/-- The `tuple_impl` `FetchResource::access` (source lines 258-263):
`let mut access = TypeAccess::default(); $(access.union(&$name::access());)*`. -/
def compositeAccess (l : List Fetch) : TypeAccess :=
  l.foldl (fun acc f => acc.union f.access) TypeAccess.default

/-- The `tuple_impl` `FetchResource::get` (source lines 253-256):
`($($name::get(resources, system_id),)*)` — each element's get, in
declaration order, as a positional group. -/
def compositeGet : List Fetch → Resources → Option Nat → Except FetchError (List Nat)
| [], _, _ => Except.ok []
| f :: fs, r, sid =>
  match f.get r sid with
  | Except.error e => Except.error e
  | Except.ok v =>
    match compositeGet fs r sid with
    | Except.error e => Except.error e
    | Except.ok vs => Except.ok (v :: vs)

/-- The single store operation an element's borrow requests: shared on
its type id for `read`, exclusive for `write` and `localMut`. -/
inductive StoreOp where
| shared : Nat → StoreOp
| excl : Nat → StoreOp
deriving Repr, DecidableEq

/-- The store operation of one composite element. -/
def Fetch.borrowOp : Fetch → StoreOp
| Fetch.read t => StoreOp.shared t
| Fetch.write t => StoreOp.excl t
| Fetch.localMut t => StoreOp.excl t

/-- Acquire one store operation. -/
def StoreOp.applyBorrow : StoreOp → Resources → Option Resources
| StoreOp.shared t, r => Resources.borrow r t
| StoreOp.excl t, r => Resources.borrow_mut r t

/-- Undo one store operation. -/
def StoreOp.applyRelease : StoreOp → Resources → Resources
| StoreOp.shared t, r => Resources.release r t
| StoreOp.excl t, r => Resources.release_mut r t

/-- Run a list of store acquisitions left to right. -/
def runBorrows : List StoreOp → Resources → Option Resources
| [], r => some r
| op :: ops, r => (op.applyBorrow r).bind (runBorrows ops)

/-- Run a list of store releases left to right. -/
def runReleases : List StoreOp → Resources → Resources
| [], r => r
| op :: ops, r => runReleases ops (op.applyRelease r)

/-- A store with no outstanding borrows and no registered slots. -/
def s0free : Resources :=
  { readCount := fun _ => 0, writeFlag := fun _ => false,
    globalSlot := fun _ => none, localSlot := fun _ _ => none }

/-- `s0free` after a shared borrow of type 0. -/
def s0r : Resources :=
  { readCount := fun u => if u = 0 then 1 else 0, writeFlag := fun _ => false,
    globalSlot := fun _ => none, localSlot := fun _ _ => none }

/-- `s0free` after an exclusive borrow of type 0. -/
def s0w : Resources :=
  { readCount := fun _ => 0, writeFlag := fun u => if u = 0 then true else false,
    globalSlot := fun _ => none, localSlot := fun _ _ => none }

/-- `s0free` after a shared borrow of type 0 and an exclusive borrow of
type 1. -/
def s0rw : Resources :=
  { readCount := fun u => if u = 0 then 1 else 0,
    writeFlag := fun u => if u = 1 then true else false,
    globalSlot := fun _ => none, localSlot := fun _ _ => none }

/-- `s0free` after the private slot (system 0, type 0) is filled with 7. -/
def s1loc : Resources :=
  { readCount := fun _ => 0, writeFlag := fun _ => false,
    globalSlot := fun _ => none,
    localSlot := fun a b => if a = 0 ∧ b = 0 then some 7 else none }

/-- Repeated `insert_local` at the same (system, type) slot is absorbed:
the first write wins and later calls leave the store unchanged. -/
theorem insert_local_absorb (r : Resources) (i t v w : Nat) :
    (r.insert_local i t v).insert_local i t w = r.insert_local i t v := by
  unfold Resources.insert_local
  cases hslot : r.localSlot i t with
  | some x => simp [hslot]
  | none => simp [hslot]

/-- Undoing a successful shared borrow restores the store exactly. -/
theorem release_after_borrow (s s' : Resources) (t : Nat)
    (h : Resources.borrow s t = some s') : Resources.release s' t = s := by
  obtain ⟨rc, wf, gs, ls⟩ := s
  unfold Resources.borrow at h
  by_cases hw : wf t
  · simp [hw] at h
  · simp [hw] at h
    subst h
    unfold Resources.release
    simp only [Resources.mk.injEq]
    refine ⟨funext fun u => ?_, trivial, trivial, trivial⟩
    by_cases hu : u = t <;> simp [hu]

/-- Undoing a successful exclusive borrow restores the store exactly. -/
theorem release_mut_after_borrow_mut (s s' : Resources) (t : Nat)
    (h : Resources.borrow_mut s t = some s') : Resources.release_mut s' t = s := by
  obtain ⟨rc, wf, gs, ls⟩ := s
  unfold Resources.borrow_mut at h
  by_cases hw : wf t
  · simp [hw] at h
  · by_cases hr : rc t = 0
    · simp [hw, hr] at h
      subst h
      unfold Resources.release_mut
      simp only [Resources.mk.injEq]
      refine ⟨trivial, funext fun u => ?_, trivial, trivial⟩
      simp only [Bool.not_eq_true] at hw
      by_cases hu : u = t <;> simp [hu, hw]
    · simp [hw, hr] at h

/-- Each element's `borrow` is the acquisition of its single store
operation. -/
theorem fetch_borrow_eq_op (f : Fetch) : f.borrow = f.borrowOp.applyBorrow := by
  cases f <;> rfl

/-- Each element's `release` is the undoing of its single store
operation. -/
theorem fetch_release_eq_op (f : Fetch) : f.release = f.borrowOp.applyRelease := by
  cases f <;> rfl

/-- A composite borrow runs exactly the elementwise store operations, in
declaration order. -/
theorem compositeBorrow_eq_runBorrows (l : List Fetch) :
    ∀ r : Resources, compositeBorrow l r = runBorrows (l.map Fetch.borrowOp) r := by
  induction l with
  | nil => intro r; rfl
  | cons f fs ih =>
    intro r
    simp only [compositeBorrow, List.map, runBorrows, fetch_borrow_eq_op]
    cases hx : f.borrowOp.applyBorrow r <;> simp [hx, ih]

/-- A composite release runs exactly the elementwise store operations, in
declaration order. -/
theorem compositeRelease_eq_runReleases (l : List Fetch) :
    ∀ r : Resources, compositeRelease l r = runReleases (l.map Fetch.borrowOp) r := by
  induction l with
  | nil => intro r; rfl
  | cons f fs ih =>
    intro r
    simp only [compositeRelease, List.map, runReleases, fetch_release_eq_op]
    exact ih _

/-- Membership in the read set accumulated by the composite fold. -/
theorem mem_foldl_union_immutable (l : List Fetch) :
    ∀ (acc : TypeAccess) (x : Nat),
      x ∈ (l.foldl (fun a f => a.union f.access) acc).immutable ↔
        x ∈ acc.immutable ∨ ∃ f ∈ l, x ∈ (Fetch.access f).immutable := by
  induction l with
  | nil => intro acc x; simp
  | cons f fs ih =>
    intro acc x
    simp only [List.foldl_cons]
    rw [ih]
    simp [TypeAccess.union, or_assoc]

/-- Membership in the write set accumulated by the composite fold. -/
theorem mem_foldl_union_mutable (l : List Fetch) :
    ∀ (acc : TypeAccess) (x : Nat),
      x ∈ (l.foldl (fun a f => a.union f.access) acc).mutable ↔
        x ∈ acc.mutable ∨ ∃ f ∈ l, x ∈ (Fetch.access f).mutable := by
  induction l with
  | nil => intro acc x; simp
  | cons f fs ih =>
    intro acc x
    simp only [List.foldl_cons]
    rw [ih]
    simp [TypeAccess.union, or_assoc]

/-- C1: for every resource type `t`, the access descriptor of each handle
kind is exact: `FetchResourceRead` (for `Res<T>`) reads `{t}` and writes
nothing; `FetchResourceWrite` (for `ResMut<T>`) reads nothing and writes
`{t}`; `FetchResourceLocalMut` (for `Local<T>`) reads nothing and writes
`{t}`. -/
theorem access_per_kind (t : Nat) :
    FetchResourceRead.access t = { immutable := {t}, mutable := ∅ } ∧
    FetchResourceWrite.access t = { immutable := ∅, mutable := {t} } ∧
    FetchResourceLocalMut.access t = { immutable := ∅, mutable := {t} } := by
  refine ⟨?_, ?_, ?_⟩ <;>
    simp [FetchResourceRead.access, FetchResourceWrite.access,
      FetchResourceLocalMut.access, TypeAccess.default]

/-- C2: a composite fetch's access descriptor is the union of its
elements' descriptors — membership in its read (write) set is exactly
membership in some element's read (write) set — and in particular the
composite `(Res<A>, ResMut<B>)` has read set `{a}` and write set `{b}`
and nothing else. -/
theorem composite_access_is_union (l : List Fetch) (x a b : Nat) :
    (x ∈ (compositeAccess l).immutable ↔ ∃ f ∈ l, x ∈ (Fetch.access f).immutable) ∧
    (x ∈ (compositeAccess l).mutable ↔ ∃ f ∈ l, x ∈ (Fetch.access f).mutable) ∧
    compositeAccess [Fetch.read a, Fetch.write b] =
      { immutable := {a}, mutable := {b} } := by
  refine ⟨?_, ?_, ?_⟩
  · rw [compositeAccess, mem_foldl_union_immutable]
    simp [TypeAccess.default]
  · rw [compositeAccess, mem_foldl_union_mutable]
    simp [TypeAccess.default]
  · simp [compositeAccess, TypeAccess.union, TypeAccess.default, Fetch.access,
      FetchResourceRead.access, FetchResourceWrite.access]

/-- C2 witness: at the concrete composite `(Res<0>, ResMut<1>)` the
descriptor is read `{0}`, write `{1}`. -/
theorem composite_access_is_union_witness :
    compositeAccess [Fetch.read 0, Fetch.write 1] =
      { immutable := {0}, mutable := {1} } :=
  (composite_access_is_union [] 0 0 1).2.2

/-- C3: a composite `borrow()` performs each element's store acquisition
in declaration (positional) order, and `release()` each element's store
release; in particular `(Res<A>, ResMut<B>)` first takes the shared
borrow on `A`, then the exclusive borrow on `B`. -/
theorem composite_borrow_in_order (l : List Fetch) (r : Resources) :
    compositeBorrow l r = runBorrows (l.map Fetch.borrowOp) r ∧
    compositeRelease l r = runReleases (l.map Fetch.borrowOp) r ∧
    (∀ a b r₁ r₂, Resources.borrow r a = some r₁ →
      Resources.borrow_mut r₁ b = some r₂ →
      compositeBorrow [Fetch.read a, Fetch.write b] r = some r₂) := by
  refine ⟨compositeBorrow_eq_runBorrows l r, compositeRelease_eq_runReleases l r, ?_⟩
  intro a b r₁ r₂ h₁ h₂
  simp [compositeBorrow, Fetch.borrow, FetchResourceRead.borrow,
    FetchResourceWrite.borrow, h₁, h₂]

/-- C3 witness: on the all-free store, borrowing the composite
`(Res<0>, ResMut<1>)` ends in the store with a shared borrow of 0 and an
exclusive borrow of 1. -/
theorem composite_borrow_in_order_witness :
    compositeBorrow [Fetch.read 0, Fetch.write 1] s0free = some s0rw :=
  (composite_borrow_in_order [] s0free).2.2 0 1 s0r s0rw rfl rfl

/-- C4: for every handle kind, a successful `borrow()` followed by the
matching `release()` restores the store exactly — the shared borrow
increments then decrements the read counter, the exclusive borrows set
then clear the exclusive flag. -/
theorem borrow_release_roundtrip (s : Resources) (t : Nat) (s₁ s₂ s₃ : Resources) :
    (FetchResourceRead.borrow t s = some s₁ → FetchResourceRead.release t s₁ = s) ∧
    (FetchResourceWrite.borrow t s = some s₂ → FetchResourceWrite.release t s₂ = s) ∧
    (FetchResourceLocalMut.borrow t s = some s₃ → FetchResourceLocalMut.release t s₃ = s) :=
  ⟨fun h => release_after_borrow s s₁ t h,
   fun h => release_mut_after_borrow_mut s s₂ t h,
   fun h => release_mut_after_borrow_mut s s₃ t h⟩

/-- C4 witness: on the all-free store and type 0, each kind's release
undoes its borrow. -/
theorem borrow_release_roundtrip_witness :
    FetchResourceRead.release 0 s0r = s0free ∧
    FetchResourceWrite.release 0 s0w = s0free ∧
    FetchResourceLocalMut.release 0 s0w = s0free :=
  ⟨(borrow_release_roundtrip s0free 0 s0r s0w s0w).1 rfl,
   (borrow_release_roundtrip s0free 0 s0r s0w s0w).2.1 rfl,
   (borrow_release_roundtrip s0free 0 s0r s0w s0w).2.2 rfl⟩

/-- C5: `Local<T>` initialization is idempotent per system: a first call
fills an empty (system, type) slot with the default-constructed value,
and a second call for the same system leaves the store (hence the
stored value) unchanged. -/
theorem local_initialize_idempotent (t : Nat) (d : Resources → Nat) (r : Resources)
    (i : Nat) (r₁ : Resources)
    (h : Local.initialize t d r (some i) = Except.ok r₁) :
    (r.localSlot i t = none → r₁.localSlot i t = some (d r)) ∧
    Local.initialize t d r₁ (some i) = Except.ok r₁ := by
  unfold Local.initialize at h
  simp only [Except.ok.injEq] at h
  subst h
  constructor
  · intro hn
    unfold Resources.insert_local
    simp [hn]
  · show Except.ok ((r.insert_local i t (d r)).insert_local i t
      (d (r.insert_local i t (d r)))) = Except.ok (r.insert_local i t (d r))
    rw [insert_local_absorb]

/-- C5 witness: initializing (system 0, type 0) on the empty store writes
the default 7; initializing again returns the store unchanged. -/
theorem local_initialize_idempotent_witness :
    s1loc.localSlot 0 0 = some 7 ∧
    Local.initialize 0 (fun _ => 7) s1loc (some 0) = Except.ok s1loc :=
  ⟨(local_initialize_idempotent 0 (fun _ => 7) s0free 0 s1loc rfl).1 rfl,
   (local_initialize_idempotent 0 (fun _ => 7) s0free 0 s1loc rfl).2⟩

/-- C6: `Local<T>`'s `get` and `initialize` fail fatally, with the
explicit message of the source's `expect`, exactly when no system
identity is supplied: with `none` both return that failure; with
`some i`, `get` can only fail with a missing-resource failure and
`initialize` always succeeds. -/
theorem local_requires_system_identity (t : Nat) (d : Resources → Nat) (r : Resources) :
    FetchResourceLocalMut.get t r none =
      Except.error (FetchError.missingSystemId localPanicMsg) ∧
    Local.initialize t d r none =
      Except.error (FetchError.missingSystemId localPanicMsg) ∧
    (∀ i e, FetchResourceLocalMut.get t r (some i) = Except.error e →
      e = FetchError.missingResource) ∧
    (∀ i, Local.initialize t d r (some i) = Except.ok (r.insert_local i t (d r))) := by
  refine ⟨rfl, rfl, ?_, fun i => rfl⟩
  intro i e h
  unfold FetchResourceLocalMut.get at h
  cases hg : r.get_raw_ref t (ResourceIndex.System i) <;> simp [hg] at h
  exact h.symm

/-- C6 witness: on the empty store, `get` without a system id yields the
missing-system-id failure; `get` with system id 0 yields (only) the
missing-resource failure. -/
theorem local_requires_system_identity_witness :
    FetchResourceLocalMut.get 0 s0free none =
      Except.error (FetchError.missingSystemId localPanicMsg) ∧
    FetchError.missingResource = FetchError.missingResource :=
  ⟨(local_requires_system_identity 0 (fun _ => 0) s0free).1,
   (local_requires_system_identity 0 (fun _ => 0) s0free).2.2.1 0
     FetchError.missingResource rfl⟩

/-- C7 counterexample: `Local<T>`'s borrow is NOT scoped to the
requesting system.  `FetchResourceLocalMut.borrow` takes no system
identity at all, so the borrows issued by two different systems for the
same type are two successive calls on the shared store: on the all-free
store the first succeeds (setting the global exclusive flag of type 0)
and the second fails — the two systems do conflict. -/
theorem local_borrow_not_self_scoped :
    FetchResourceLocalMut.borrow 0 s0free = some s0w ∧
    FetchResourceLocalMut.borrow 0 s0w = none :=
  ⟨rfl, rfl⟩

/-- C7 (amended): the borrow of a `Local<T>` is a global exclusive
borrow of `T`, not scoped to the requesting system: while any system's
`Local<T>` borrow is outstanding, a further `Local<T>` borrow of the
same type — by any system — fails. -/
theorem local_borrow_globally_exclusive (t : Nat) (s s₁ : Resources)
    (h : FetchResourceLocalMut.borrow t s = some s₁) :
    FetchResourceLocalMut.borrow t s₁ = none := by
  unfold FetchResourceLocalMut.borrow Resources.borrow_mut at h ⊢
  by_cases hw : s.writeFlag t
  · simp [hw] at h
  · by_cases hr : s.readCount t = 0
    · simp [hw, hr] at h
      subst h
      simp
    · simp [hw, hr] at h

/-- C7 (amended) witness: on the store holding an exclusive borrow of
type 0, a further `Local` borrow of type 0 fails. -/
theorem local_borrow_globally_exclusive_witness :
    FetchResourceLocalMut.borrow 0 s0w = none :=
  local_borrow_globally_exclusive 0 s0free s0w rfl

/-- C8: the internal duplicate operation (`unsafe_clone`) of each handle
kind and of a tuple of handles returns a handle with the same underlying
slot pointer and performs no store operation: the store, with all its
read counters and exclusive flags, is returned unchanged. -/
theorem raw_clone_same_slot_no_store_effect (h₁ : Res) (h₂ : ResMut) (h₃ : Local)
    (r : Resources) :
    (Res.raw_clone h₁ r).1.value = h₁.value ∧ (Res.raw_clone h₁ r).2 = r ∧
    (ResMut.raw_clone h₂ r).1.value = h₂.value ∧ (ResMut.raw_clone h₂ r).2 = r ∧
    (Local.raw_clone h₃ r).1.value = h₃.value ∧ (Local.raw_clone h₃ r).2 = r ∧
    (prod_raw_clone (h₁, h₂) r).1.1.value = h₁.value ∧
    (prod_raw_clone (h₁, h₂) r).1.2.value = h₂.value ∧
    (prod_raw_clone (h₁, h₂) r).2 = r :=
  ⟨rfl, rfl, rfl, rfl, rfl, rfl, rfl, rfl, rfl⟩

/-- C9: the empty composite fetch is legal: empty access descriptor,
`borrow()`/`release()` that return the store unchanged (no counter or
flag change), and a `get()` returning the empty group. -/
theorem empty_composite_is_noop (r : Resources) (sid : Option Nat) :
    compositeAccess [] = TypeAccess.default ∧
    (compositeAccess []).immutable = ∅ ∧
    (compositeAccess []).mutable = ∅ ∧
    compositeBorrow [] r = some r ∧
    compositeRelease [] r = r ∧
    compositeGet [] r sid = Except.ok [] :=
  ⟨rfl, rfl, rfl, rfl, rfl, rfl⟩

/-- C10: the `Local<T>` fetch performs exactly the same `borrow`,
`release` and `access` as the `ResMut<T>` fetch — both take the global
exclusive borrow of `T` and declare write access to `T` — so a `Local`
borrow conflicts with any other borrow of `T`, e.g. it fails while a
shared borrow of `T` is outstanding. -/
theorem localmut_write_fetch_equivalent (t : Nat) (r : Resources) :
    FetchResourceLocalMut.borrow t r = FetchResourceWrite.borrow t r ∧
    FetchResourceLocalMut.release t r = FetchResourceWrite.release t r ∧
    FetchResourceLocalMut.access t = FetchResourceWrite.access t ∧
    (∀ r₁, FetchResourceRead.borrow t r = some r₁ →
      FetchResourceLocalMut.borrow t r₁ = none) := by
  refine ⟨rfl, rfl, rfl, ?_⟩
  intro r₁ h
  unfold FetchResourceRead.borrow Resources.borrow at h
  unfold FetchResourceLocalMut.borrow Resources.borrow_mut
  by_cases hw : r.writeFlag t
  · simp [hw] at h
  · simp [hw] at h
    subst h
    simp [hw]

/-- C10 witness: with a shared borrow of type 0 outstanding, the `Local`
borrow of type 0 fails. -/
theorem localmut_write_fetch_equivalent_witness :
    FetchResourceLocalMut.borrow 0 s0r = none :=
  (localmut_write_fetch_equivalent 0 s0free).2.2.2 s0r rfl

end Bevy
